import Mathlib

/-!
# Verification of the stock-mvp watchlist core

Shallow embedding of the scoring, caching and watchlist-building core of the
stock-mvp repository, together with theorems settling the specified claims.

Sources embedded:
* `src/app.py` : `simple_sentiment`, `compute_score_from_series`,
  `get_prices_cached` / `get_news_cached` (the temporal cache pattern),
  `build_watchlist`, `get_watchlist_cached`, `require_refresh_token`,
  `refresh`.
* `src/score.py` : the per-ticker scoring core of `compute_scores`.

Modelling conventions:
* Python floats are modelled as exact rationals; the one operation that
  leaves the rationals, the square root inside the volatility proxy, is
  modelled with `Real.sqrt`, so volatility/risk and the final score live
  in `ℝ` while every other quantity stays in `ℚ`.
* Python exceptions (`ValueError` in the score engine, the per-ticker
  `except Exception: continue` in the builder) are modelled with `Option`.
* Wall-clock timestamps are opaque rationals passed explicitly.
* The string formatting of the `reason` field is not modelled; the `label`
  value that the code interpolates into `reason` is kept as a field.
-/

namespace StockMVP

/-! ## Keyword sentiment (src/app.py, `simple_sentiment`)

Python's `w in t` substring test and `str.lower` are modelled on
character lists with structural recursion. -/

/-- Does the second list start with the first one?  (Helper for the
substring test; structurally recursive so the kernel can evaluate it.) -/
def leadsList : List Char → List Char → Bool
  | [], _ => true
  | _ :: _, [] => false
  | c :: cs, d :: ds => c == d && leadsList cs ds

/-- Python's `small in big` contiguous-substring test on character lists. -/
def hasSubstring (small : List Char) : List Char → Bool
  | [] => small.isEmpty
  | c :: rest => leadsList small (c :: rest) || hasSubstring small rest

/-- Python's `str.lower`, restricted to the ASCII case mapping. -/
def lowerChars (s : String) : List Char :=
  s.data.map Char.toLower

/-- The fixed positive word set `_POS_WORDS` of src/app.py. -/
def POS_WORDS : List String :=
  ["beats", "beat", "surge", "record", "profit", "profits", "growth",
   "upgrades", "upgrade", "buyback", "dividend", "strong", "wins", "win",
   "order", "contract", "approval", "raises", "raised", "guidance",
   "expands", "expansion", "acquires", "acquisition"]

/-- The fixed negative word set `_NEG_WORDS` of src/app.py. -/
def NEG_WORDS : List String :=
  ["miss", "misses", "fall", "falls", "drop", "drops", "loss", "losses",
   "weak", "downgrade", "downgrades", "cut", "cuts", "probe", "fraud",
   "scam", "lawsuit", "penalty", "fine", "decline", "slump", "warning",
   "defaults", "default"]

/-- Number of positive-set members contained in the (already lowered)
character list: `sum(1 for w in _POS_WORDS if w in t)`. -/
def posHits (t : List Char) : ℕ :=
  (POS_WORDS.filter fun w => hasSubstring w.data t).length

/-- Number of negative-set members contained in the lowered text. -/
def negHits (t : List Char) : ℕ :=
  (NEG_WORDS.filter fun w => hasSubstring w.data t).length

/-- `simple_sentiment` of src/app.py: empty text gives 0.0, otherwise
`(pos - neg) / max(1, pos + neg)` over keyword hits in the lowered text. -/
def simpleSentiment (text : String) : ℚ :=
  if text = "" then 0
  else
    let t := lowerChars text
    let pos := posHits t
    let neg := negHits t
    let total := pos + neg
    if total = 0 then 0
    else ((pos : ℚ) - (neg : ℚ)) / max 1 (total : ℚ)

/-! ## Score engine (src/app.py `compute_score_from_series`,
src/score.py `compute_scores` scoring core) -/

/-- A price bar as consumed by the score engine; only the `close` field is
read (`p.get("close")`), which may be absent. -/
structure PriceBar where
  close : Option ℚ
deriving DecidableEq

/-- A news item as consumed by the score engine; only the `sentiment`
field is read (`n.get("sentiment") or 0.0`), which may be absent. -/
structure NewsItem where
  sentiment : Option ℚ
deriving DecidableEq

/-- `closes = [p["close"] for p in prices if p.get("close") is not None]`. -/
def closesOf (prices : List PriceBar) : List ℚ :=
  prices.filterMap (·.close)

/-- The inner `ret(n_days)` of both scoring variants:
`closes[-1] / closes[-(n+1)] - 1.0` when enough history, else 0.0. -/
def retN (closes : List ℚ) (n : ℕ) : ℚ :=
  if n + 1 ≤ closes.length then
    closes.getD (closes.length - 1) 0 / closes.getD (closes.length - (n + 1)) 0 - 1
  else 0

/-- `momentum = (r1 * 50.0) + (r5 * 30.0) + (r20 * 20.0)`. -/
def momentum (closes : List ℚ) : ℚ :=
  retN closes 1 * 50 + retN closes 5 * 30 + retN closes 20 * 20

/-- The most recent 30 one-day return observations:
`[(closes[i] - closes[i-1]) / closes[i-1] for i in range(len(closes) - 30, len(closes))]`
(only ever used under the guard `len(closes) >= 31`). -/
def rets1d (closes : List ℚ) : List ℚ :=
  (List.range 30).map fun j =>
    let i := closes.length - 30 + j
    (closes.getD i 0 - closes.getD (i - 1) 0) / closes.getD (i - 1) 0

/-- `sum(xs) / len(xs)`. -/
def listMean (xs : List ℚ) : ℚ :=
  xs.sum / xs.length

/-- src/app.py variance: `sum((x - mean) ** 2 ...) / max(1, len - 1)`
(the sample variance for the 30-observation window). -/
def sampleVar (xs : List ℚ) : ℚ :=
  (xs.map fun x => (x - listMean xs) ^ 2).sum / max 1 ((xs.length : ℚ) - 1)

/-- src/score.py variance: `np.std` squares, i.e. the population variance
`sum((x - mean) ** 2 ...) / len`. -/
def popVar (xs : List ℚ) : ℚ :=
  (xs.map fun x => (x - listMean xs) ^ 2).sum / (xs.length : ℚ)

/-- src/app.py volatility proxy: `sqrt(var)` of the sample variance when at
least 31 closes are available, else 0.0. -/
noncomputable def volApp (closes : List ℚ) : ℝ :=
  if 31 ≤ closes.length then Real.sqrt ((sampleVar (rets1d closes) : ℝ)) else 0

/-- src/app.py `risk = vol * 100.0`. -/
noncomputable def riskApp (closes : List ℚ) : ℝ :=
  volApp closes * 100

/-- src/score.py volatility proxy: `float(np.std(rets_1d)) if len(rets_1d) > 5
else 0.0`, under the same `len(closes) >= 31` guard. -/
noncomputable def volScore (closes : List ℚ) : ℝ :=
  if 31 ≤ closes.length then
    if 5 < (rets1d closes).length then Real.sqrt ((popVar (rets1d closes) : ℝ)) else 0
  else 0

/-- src/score.py `risk = vol * 100.0`. -/
noncomputable def riskScore (closes : List ℚ) : ℝ :=
  volScore closes * 100

/-- `n.get("sentiment") or 0.0` (absent and 0.0 both give 0.0). -/
def sentimentOrZero (n : NewsItem) : ℚ :=
  n.sentiment.getD 0

/-- `avg_sent = sum(...) / n_count if n_count else 0.0`. -/
def avgSent (news : List NewsItem) : ℚ :=
  if news.length = 0 then 0 else (news.map sentimentOrZero).sum / news.length

/-- `news_impact = (avg_sent * 60.0) + (min(n_count, 10) * 4.0)`. -/
def newsImpact (news : List NewsItem) : ℚ :=
  avgSent news * 60 + (min news.length 10 : ℕ) * 4

/-- `is_downtrend = (r5 < 0.0) and (r20 < 0.0)`. -/
def isDowntrend (closes : List ℚ) : Bool :=
  decide (retN closes 5 < 0) && decide (retN closes 20 < 0)

/-- `has_positive_news = (news_impact >= 8.0)`. -/
def hasPositiveNews (news : List NewsItem) : Bool :=
  decide ((8 : ℚ) ≤ newsImpact news)

/-- `has_bounce = (r1 > 0.0) or (r5 > -0.01)`. -/
def hasBounce (closes : List ℚ) : Bool :=
  decide (0 < retN closes 1) || decide (-(1/100 : ℚ) < retN closes 5)

/-- The turnaround bonus as a function of the returns and the news impact:
0.0 unless `is_downtrend and has_positive_news`, in which case
`min(12.0, news_impact * 0.6)` plus 3.0 on a bounce. -/
def turnaroundBonusRaw (r1 r5 r20 ni : ℚ) : ℚ :=
  if r5 < 0 ∧ r20 < 0 ∧ 8 ≤ ni then
    min 12 (ni * 0.6) + (if 0 < r1 ∨ -(1/100 : ℚ) < r5 then 3 else 0)
  else 0

/-- The turnaround bonus of a scoring input (both variants compute it the
same way). -/
def turnaroundBonus (closes : List ℚ) (news : List NewsItem) : ℚ :=
  turnaroundBonusRaw (retN closes 1) (retN closes 5) (retN closes 20) (newsImpact news)

/-- src/app.py
`final_score = (0.5 * news_impact) + (0.3 * momentum) - (0.2 * risk) + turnaround_bonus`. -/
noncomputable def finalScoreApp (closes : List ℚ) (news : List NewsItem) : ℝ :=
  0.5 * (newsImpact news : ℝ) + 0.3 * (momentum closes : ℝ) - 0.2 * riskApp closes
    + (turnaroundBonus closes news : ℝ)

/-- src/score.py final score: same formula over its own risk term. -/
noncomputable def finalScoreScore (closes : List ℚ) (news : List NewsItem) : ℝ :=
  0.5 * (newsImpact news : ℝ) + 0.3 * (momentum closes : ℝ) - 0.2 * riskScore closes
    + (turnaroundBonus closes news : ℝ)

open Classical in
/-- Label assignment of src/app.py lines 276-282: sequential reassignment
starting from "Watch", testing Catalyst + Momentum, then Turnaround, then
High Risk; the LAST test that fires wins. -/
noncomputable def labelApp (ni mom : ℚ) (risk fs : ℝ) (dt pn : Bool) : String :=
  let l0 := "Watch"
  let l1 := if 10 < ni ∧ 0 < mom then "Catalyst + Momentum" else l0
  let l2 := if dt && pn then "Turnaround Watch" else l1
  if 4 < risk ∧ 0 < fs then "High Risk Watch" else l2

open Classical in
/-- Label assignment of src/score.py lines 107-113: sequential reassignment
testing High Risk, then Catalyst + Momentum, then Turnaround last. -/
noncomputable def labelScore (ni mom : ℚ) (risk fs : ℝ) (dt pn : Bool) : String :=
  let l0 := "Watch"
  let l1 := if 4 < risk ∧ 0 < fs then "High Risk Watch" else l0
  let l2 := if 10 < ni ∧ 0 < mom then "Catalyst + Momentum" else l1
  if dt && pn then "Turnaround Watch" else l2

/-- The scoring output (the numeric fields of the returned dict / the
`DailyScore` row, plus the computed label). -/
structure ScoreResult where
  ticker : String
  final_score : ℝ
  news_impact : ℚ
  momentum : ℚ
  risk : ℝ
  label : String

/-- src/app.py `compute_score_from_series`; the `ValueError` raised on
fewer than 25 usable closes is modelled as `none`. -/
noncomputable def computeScoreFromSeries (ticker : String) (prices : List PriceBar)
    (news : List NewsItem) : Option ScoreResult :=
  let closes := closesOf prices
  if closes.length < 25 then none
  else some
    { ticker := ticker
      final_score := finalScoreApp closes news
      news_impact := newsImpact news
      momentum := momentum closes
      risk := riskApp closes
      label := labelApp (newsImpact news) (momentum closes) (riskApp closes)
        (finalScoreApp closes news) (isDowntrend closes) (hasPositiveNews news) }

/-- The per-ticker scoring core of src/score.py `compute_scores` (the loop
body from the `len(prices) < 25` guard to the `DailyScore` row); the
`continue` on short history is modelled as `none`. -/
noncomputable def computeScoresCore (ticker : String) (closes : List ℚ)
    (news : List NewsItem) : Option ScoreResult :=
  if closes.length < 25 then none
  else some
    { ticker := ticker
      final_score := finalScoreScore closes news
      news_impact := newsImpact news
      momentum := momentum closes
      risk := riskScore closes
      label := labelScore (newsImpact news) (momentum closes) (riskScore closes)
        (finalScoreScore closes news) (isDowntrend closes) (hasPositiveNews news) }

/-! ### Definitions following the claim wording (for the refinement
comparisons of C1 and C2) -/

/-- Modelled from the spec: the risk of claim C2, "the sample standard
deviation (n-1 denominator) of the most recent 30 one-day return
observations scaled by 100 when at least 31 closes are available, and 0.0
otherwise". -/
noncomputable def riskClaimed (closes : List ℚ) : ℝ :=
  if 31 ≤ closes.length then
    Real.sqrt
      (((((rets1d closes).map fun x => (x - listMean (rets1d closes)) ^ 2).sum /
        (((rets1d closes).length : ℚ) - 1) : ℚ) : ℝ)) * 100
  else 0

open Classical in
/-- Modelled from the spec: the label rule of claim C1, first-match-wins
with the turnaround label taking precedence, then Catalyst + Momentum,
then High Risk Watch, default "Watch". -/
noncomputable def labelClaimed (ni mom : ℚ) (risk fs : ℝ) (dt pn : Bool) : String :=
  if dt && pn then "Turnaround Watch"
  else if 10 < ni ∧ 0 < mom then "Catalyst + Momentum"
  else if 4 < risk ∧ 0 < fs then "High Risk Watch"
  else "Watch"

/-! ## Watchlist builder (src/app.py `build_watchlist`) -/

/-- A scored watchlist entry as ranked by the builder.  The builder only
inspects the `final_score` sort key; the rest of the per-ticker item dict
is condensed into the ticker name.  Scores are exact rationals here so
that concrete batch runs stay computable. -/
structure WItem where
  ticker : String
  final_score : ℚ
deriving DecidableEq

/-- Stable descending insertion: a new element is placed before the first
already-sorted element whose score is not larger, hence after every
earlier-encountered item of equal score. -/
def insertDesc (x : WItem) : List WItem → List WItem
  | [] => [x]
  | y :: ys =>
    if y.final_score ≤ x.final_score then x :: y :: ys else y :: insertDesc x ys

/-- Stable sort by `final_score` descending, modelling Python's stable
`items.sort(key=..., reverse=True)`.  A stable sort is uniquely determined
by being a permutation, sorted, and preserving the encounter order of
ties (all three are proved below), so insertion sort is a faithful model
of the library sort. -/
def sortDesc : List WItem → List WItem
  | [] => []
  | x :: xs => insertDesc x (sortDesc xs)

/-- `build_watchlist` item pipeline: iterate the universe in order, score
each ticker through the cached fetchers (one opaque `proc` step per
ticker, `none` modelling the `except Exception: continue`), stable-sort
the survivors by final score descending, truncate to the limit. -/
def buildWatchlist (proc : String → Option WItem) (tickers : List String)
    (limit : ℕ) : List WItem :=
  (sortDesc (tickers.filterMap proc)).take limit

/-- The fixed `caution_block` strings of src/app.py. -/
def cautionLines : List String :=
  ["This app provides market/news information and automated scoring for educational/demo purposes.",
   "It is NOT investment advice, NOT a buy/sell recommendation, and does not guarantee returns.",
   "News sentiment is computed automatically (keyword-based) and can be wrong or incomplete.",
   "Always verify from primary sources (exchange filings, company announcements) and do your own research.",
   "Markets involve risk. You may lose money."]

/-- The fixed `notes` strings of the `build_watchlist` result. -/
def notesLines : List String :=
  ["Data is computed on-demand and cached in memory (free-tier friendly).",
   "If the server restarts, cache clears and data is recomputed.",
   "News sentiment is keyword-based; open sources to verify important claims."]

/-- The dict returned by `build_watchlist`: date, caution block, notes and
the ranked items.  These four keys are everything the builder reports. -/
structure WatchlistResult where
  date : String
  caution : List String
  notes : List String
  items : List WItem
deriving DecidableEq

/-- `build_watchlist` including its fixed envelope (`date` is the wall
clock value `dt.date.today().isoformat()`, passed explicitly). -/
def buildWatchlistResult (proc : String → Option WItem) (tickers : List String)
    (limit : ℕ) (today : String) : WatchlistResult :=
  { date := today
    caution := cautionLines
    notes := notesLines
    items := buildWatchlist proc tickers limit }

/-! ## Temporal cache (src/app.py `get_prices_cached`, `get_news_cached`) -/

/-- A cache slot `{"ts": ..., "data": ...}`. -/
structure CacheEntry (α : Type) where
  ts : ℚ
  data : α
deriving DecidableEq

/-- The get-or-fetch pattern shared by `get_prices_cached` (key =
`(ticker, days)`) and `get_news_cached` (key = `(ticker, limit,
hours_back)`).  Look up the key; on a live hit (`now - ts <= TTL`) return
the stored data with the store untouched; otherwise run the fetch
function, store its result under the current timestamp and return it.
The fetch function is threaded through an arbitrary state `σ` so that a
call-counting stub can observe exactly how often it is invoked. -/
def getOrFetch {κ α σ : Type} [DecidableEq κ] (store : κ → Option (CacheEntry α))
    (key : κ) (now ttl : ℚ) (fetch : σ → α × σ) (s : σ) :
    α × (κ → Option (CacheEntry α)) × σ :=
  match store key with
  | some hit =>
    if now - hit.ts ≤ ttl then (hit.data, store, s)
    else
      let r := fetch s
      (r.1, fun k => if k = key then some ⟨now, r.1⟩ else store k, r.2)
  | none =>
    let r := fetch s
    (r.1, fun k => if k = key then some ⟨now, r.1⟩ else store k, r.2)

/-! ## Watchlist cache and refresh (src/app.py `get_watchlist_cached`,
`require_refresh_token`, `refresh`) -/

/-- The process-wide `_cache` dict of src/app.py: the whole-watchlist slot
with its timestamp, plus the keyed price and news stores. -/
structure AppCache (α β : Type) where
  watchlist : Option WatchlistResult
  watchlist_ts : ℚ
  prices : String × ℕ → Option (CacheEntry α)
  news : String × ℕ × ℕ → Option (CacheEntry β)

/-- `get_watchlist_cached`: on a live cached watchlist return it sliced to
the requested limit, cache untouched; otherwise rebuild with all four
parameters, store the result and return it.  On a hit, none of
`news_limit`, `news_hours_back`, `price_days` is consulted. -/
def getWatchlistCached {α β : Type} (c : AppCache α β) (now ttl : ℚ)
    (limit news_limit news_hours_back price_days : ℕ)
    (build : ℕ → ℕ → ℕ → ℕ → WatchlistResult) : WatchlistResult × AppCache α β :=
  match c.watchlist with
  | some wl =>
    if now - c.watchlist_ts ≤ ttl then
      ({ wl with items := wl.items.take limit }, c)
    else
      let wl2 := build limit news_limit news_hours_back price_days
      (wl2, { c with watchlist := some wl2, watchlist_ts := now })
  | none =>
    let wl2 := build limit news_limit news_hours_back price_days
    (wl2, { c with watchlist := some wl2, watchlist_ts := now })

/-- The whitespace predicate of Python's `str.strip()` (restricted to the
ASCII whitespace characters that matter here). -/
def isPySpace (c : Char) : Bool :=
  c == ' ' || c == '\t' || c == '\n' || c == '\r'

/-- Python `str.strip()`: drop leading and trailing whitespace. -/
def pyStrip (s : String) : String :=
  String.mk (((s.data.dropWhile isPySpace).reverse.dropWhile isPySpace).reverse)

/-- `require_refresh_token`: with no configured secret always allow (dev
mode); with a secret, allow only a present, non-empty header value that
equals the secret after stripping.  `secret` stands for `REFRESH_TOKEN`,
itself the stripped environment value. -/
def requireRefreshToken (secret : String) (supplied : Option String) : Bool :=
  if secret = "" then true
  else
    match supplied with
    | none => false
    | some t => if t = "" then false else pyStrip t == secret

/-- The `_cache` after the `/refresh` handler body has run: watchlist slot
cleared, timestamp zeroed, both keyed stores emptied. -/
def clearedCache {α β : Type} : AppCache α β :=
  { watchlist := none, watchlist_ts := 0, prices := fun _ => none, news := fun _ => none }

/-- The `/refresh` route: when the token dependency passes, the handler
clears every cache slot and answers 200; otherwise the dependency raises
`HTTPException(401)` before the handler runs, leaving the cache untouched. -/
def refreshEndpoint {α β : Type} (secret : String) (supplied : Option String)
    (c : AppCache α β) : ℕ × AppCache α β :=
  if requireRefreshToken secret supplied then (200, clearedCache) else (401, c)

/-! ## Helper lemmas about the stable descending sort -/

/-- Insertion produces a permutation of consing. -/
theorem insertDesc_perm (x : WItem) (l : List WItem) : List.Perm (insertDesc x l) (x :: l) := by
  induction l with
  | nil => rfl
  | cons y ys ih =>
    rw [insertDesc]
    split
    · rfl
    · exact (ih.cons y).trans (List.Perm.swap x y ys)

/-- The stable sort permutes its input. -/
theorem sortDesc_perm (l : List WItem) : List.Perm (sortDesc l) l := by
  induction l with
  | nil => rfl
  | cons x xs ih => exact (insertDesc_perm x (sortDesc xs)).trans (ih.cons x)

/-- Insertion preserves descending sortedness. -/
theorem pairwise_insertDesc {x : WItem} {l : List WItem}
    (h : l.Pairwise fun a b => b.final_score ≤ a.final_score) :
    (insertDesc x l).Pairwise fun a b => b.final_score ≤ a.final_score := by
  induction l with
  | nil => simp [insertDesc]
  | cons y ys ih =>
    rw [List.pairwise_cons] at h
    obtain ⟨hy, hys⟩ := h
    rw [insertDesc]
    by_cases hc : y.final_score ≤ x.final_score
    · rw [if_pos hc]
      refine List.Pairwise.cons ?_ (List.Pairwise.cons hy hys)
      intro z hz
      rcases List.mem_cons.mp hz with rfl | hz
      · exact hc
      · exact le_trans (hy z hz) hc
    · rw [if_neg hc]
      refine List.Pairwise.cons ?_ (ih hys)
      intro z hz
      rcases List.mem_cons.mp ((insertDesc_perm x ys).mem_iff.mp hz) with rfl | hz
      · exact le_of_lt (lt_of_not_le hc)
      · exact hy z hz

/-- The stable sort output is descending in `final_score`. -/
theorem pairwise_sortDesc (l : List WItem) :
    (sortDesc l).Pairwise fun a b => b.final_score ≤ a.final_score := by
  induction l with
  | nil => exact List.Pairwise.nil
  | cons x xs ih => exact pairwise_insertDesc ih

/-- Inserting an element does not disturb the relative order of the
elements at any fixed score level: the skipped elements all have strictly
larger scores. -/
theorem filter_insertDesc (x : WItem) (l : List WItem) (q : ℚ) :
    (insertDesc x l).filter (fun z => z.final_score == q)
      = if x.final_score = q then x :: l.filter (fun z => z.final_score == q)
        else l.filter (fun z => z.final_score == q) := by
  induction l with
  | nil =>
    rw [insertDesc]
    by_cases hx : x.final_score = q
    · simp [hx]
    · simp [hx]
  | cons y ys ih =>
    rw [insertDesc]
    by_cases hc : y.final_score ≤ x.final_score
    · rw [if_pos hc]
      by_cases hx : x.final_score = q
      · simp [List.filter_cons, hx]
      · simp [List.filter_cons, hx]
    · rw [if_neg hc]
      by_cases hx : x.final_score = q
      · have hyq : ¬ y.final_score = q := fun hyq =>
          hc (le_of_eq (hyq.trans hx.symm))
        rw [if_pos hx]
        rw [List.filter_cons, List.filter_cons, if_neg (by simp [hyq]),
          if_neg (by simp [hyq]), ih, if_pos hx]
      · rw [if_neg hx]
        rw [List.filter_cons, List.filter_cons, ih, if_neg hx]

/-- Stability: at every fixed score level, the sorted list lists the
elements in their original encounter order. -/
theorem filter_sortDesc (l : List WItem) (q : ℚ) :
    (sortDesc l).filter (fun z => z.final_score == q)
      = l.filter (fun z => z.final_score == q) := by
  induction l with
  | nil => rfl
  | cons x xs ih =>
    rw [sortDesc, filter_insertDesc, List.filter_cons]
    by_cases hx : x.final_score = q
    · rw [if_pos hx, ih, if_pos (by simp [hx])]
    · rw [if_neg hx, ih, if_neg (by simp [hx])]

/-! ## Claim C3: turnaround bonus -/

/-- Claim C3 (confirmed): for every scoring input the turnaround bonus is
exactly 0 unless `r5 < 0` and `r20 < 0` and `news_impact >= 8.0` (so at
the boundary `r5 == 0` there is no bonus, while `r5 = -0.0001` with the
other conditions is eligible); when all three hold, the bonus equals
`min(12, news_impact*0.6)` plus an extra 3 if `r1 > 0` or `r5 > -0.01`;
and the bonus never exceeds 15. -/
theorem C3_turnaround_bonus (closes : List ℚ) (news : List NewsItem) :
    (¬(retN closes 5 < 0 ∧ retN closes 20 < 0 ∧ 8 ≤ newsImpact news) →
      turnaroundBonus closes news = 0) ∧
    ((retN closes 5 < 0 ∧ retN closes 20 < 0 ∧ 8 ≤ newsImpact news) →
      turnaroundBonus closes news
        = min 12 (newsImpact news * 0.6)
          + (if 0 < retN closes 1 ∨ -(1/100 : ℚ) < retN closes 5 then 3 else 0)) ∧
    turnaroundBonus closes news ≤ 15 := by
  refine ⟨fun h => by rw [turnaroundBonus, turnaroundBonusRaw, if_neg h],
    fun h => by rw [turnaroundBonus, turnaroundBonusRaw, if_pos h], ?_⟩
  rw [turnaroundBonus, turnaroundBonusRaw]
  split
  · have h1 : min 12 (newsImpact news * 0.6) ≤ (12 : ℚ) := min_le_left _ _
    split
    · linarith
    · linarith
  · norm_num

/-- Ten maximally positive news items (news_impact = 1*60 + 10*4 = 100). -/
def newsC3 : List NewsItem :=
  [⟨some 1⟩, ⟨some 1⟩, ⟨some 1⟩, ⟨some 1⟩, ⟨some 1⟩,
   ⟨some 1⟩, ⟨some 1⟩, ⟨some 1⟩, ⟨some 1⟩, ⟨some 1⟩]

/-- A 25-close series with `r5` exactly `-0.0001` (the claim's eligibility
boundary), `r20 < 0` and `r1 < 0`. -/
def closesC3 : List ℚ :=
  [2, 2, 2, 2, 2, 1, 1, 1, 1, 1, 1, 1, 1, 1, 1, 1, 1, 1, 1, 1, 1, 1, 1, 1,
   9999/10000]

/-- A 25-close series with `r5` exactly 0 and `r20 < 0` (the claim's
no-bonus boundary). -/
def closesC3b : List ℚ :=
  [2, 2, 2, 2, 2, 1, 1, 1, 1, 1, 1, 1, 1, 1, 1, 1, 1, 1, 1, 1, 1, 1, 1, 1, 1]

/-- Witness for C3 at the claim's boundary inputs: with `r5 = -0.0001`
(and strong news, news_impact = 100) the bonus is eligible and maximal,
`min(12, 60) + 3 = 15`; with `r5 = 0` it is 0. -/
theorem C3_turnaround_bonus_witness :
    turnaroundBonus closesC3 newsC3 = 15 ∧
    turnaroundBonus closesC3b newsC3 = 0 := by
  have hni : newsImpact newsC3 = 100 := by
    norm_num [newsImpact, avgSent, newsC3, sentimentOrZero]
  constructor
  · have h := (C3_turnaround_bonus closesC3 newsC3).2.1
      (by
        refine ⟨?_, ?_, ?_⟩
        · norm_num [retN, closesC3]
        · norm_num [retN, closesC3]
        · rw [hni]
          norm_num)
    rw [h, hni]
    norm_num [retN, closesC3]
  · exact (C3_turnaround_bonus closesC3b newsC3).1
      (by intro hcon; have h5 := hcon.1; norm_num [retN, closesC3b] at h5)

/-! ## Claim C9: empty news gives zero news impact -/

/-- Claim C9 (confirmed): for every scoring input with an empty news item
list, the news impact is exactly 0 — both the average-sentiment term and
the capped count term vanish — and the score engine reports it as such. -/
theorem C9_empty_news_impact (t : String) (prices : List PriceBar)
    (h : 25 ≤ (closesOf prices).length) :
    (computeScoreFromSeries t prices []).map (fun r => r.news_impact) = some 0 ∧
    avgSent [] = 0 ∧ newsImpact [] = 0 := by
  have hni : newsImpact ([] : List NewsItem) = 0 := by
    simp [newsImpact, avgSent]
  refine ⟨?_, by simp [avgSent], hni⟩
  simp only [computeScoreFromSeries]
  rw [if_neg (by omega : ¬(closesOf prices).length < 25)]
  simp [hni]

/-- Concrete 25-bar price series for the C9 witness. -/
def pricesC9 : List PriceBar :=
  List.replicate 25 ⟨some 1⟩

/-- Witness for C9 on a concrete 25-close series. -/
theorem C9_empty_news_impact_witness :
    (computeScoreFromSeries "TCS.NS" pricesC9 []).map (fun r => r.news_impact)
      = some 0 :=
  (C9_empty_news_impact "TCS.NS" pricesC9 (by decide)).1

/-! ## Claim C5: the temporal cache -/

/-- Claim C5 (confirmed): a get-or-fetch call on a live entry (age at most
TTL) returns the stored value without invoking the fetch function (store
and fetch state untouched); a call with no stored entry, or with an
expired one, invokes the fetch function exactly once (the threaded fetch
state advances by exactly one application), stores its result under the
current timestamp at the key — every other key unchanged — and returns
it. -/
theorem C5_get_or_fetch {κ α σ : Type} [DecidableEq κ]
    (store : κ → Option (CacheEntry α)) (key : κ) (now ttl : ℚ)
    (fetch : σ → α × σ) (s : σ) :
    (∀ e, store key = some e → now - e.ts ≤ ttl →
      getOrFetch store key now ttl fetch s = (e.data, store, s)) ∧
    ((store key = none ∨ ∃ e, store key = some e ∧ ttl < now - e.ts) →
      getOrFetch store key now ttl fetch s
        = ((fetch s).1,
           fun k => if k = key then some ⟨now, (fetch s).1⟩ else store k,
           (fetch s).2)) := by
  constructor
  · intro e he hlive
    simp [getOrFetch, he, hlive]
  · rintro (hnone | ⟨e, he, hexp⟩)
    · simp [getOrFetch, hnone]
    · have hcond : ¬(now - e.ts ≤ ttl) := not_le.mpr hexp
      simp [getOrFetch, he, hcond]

/-- A one-entry price store for the C5 witness: `("TCS.NS", 300)` was
fetched at time 90. -/
def storeC5 : String × ℕ → Option (CacheEntry ℚ) :=
  fun k => if k = ("TCS.NS", 300) then some ⟨90, 7⟩ else none

/-- A call-counting fetch stub: returns 42 and bumps its counter. -/
def fetchC5 : ℕ → ℚ × ℕ :=
  fun calls => (42, calls + 1)

/-- Witness for C5: a live hit at time 100 (age 10, TTL 1800) returns the
stored 7 without a fetch (counter still 0); a miss fetches once (counter
1) and stores 42 at time 100. -/
theorem C5_get_or_fetch_witness :
    getOrFetch storeC5 ("TCS.NS", 300) 100 1800 fetchC5 0 = (7, storeC5, 0) ∧
    getOrFetch (fun _ => none) ("INFY.NS", 300) 100 1800 fetchC5 0
      = (42, fun k => if k = ("INFY.NS", 300) then some ⟨100, 42⟩ else none, 1) := by
  constructor
  · exact (C5_get_or_fetch storeC5 ("TCS.NS", 300) 100 1800 fetchC5 0).1
      ⟨90, 7⟩ (by simp [storeC5]) (by norm_num)
  · exact (C5_get_or_fetch (fun _ => none) ("INFY.NS", 300) 100 1800 fetchC5 0).2
      (Or.inl rfl)

/-! ## Claim C10: the watchlist cache key ignores the news/price parameters -/

/-- Claim C10 (confirmed): while a cached watchlist is live, the lookup
returns it sliced to the requested limit with the cache untouched, and
the outcome is the same for any values of `news_limit`,
`news_hours_back` and `price_days` — these are not part of the cache
key, so a hit can serve a result built with different parameters. -/
theorem C10_watchlist_cache {α β : Type} (c : AppCache α β) (now ttl : ℚ)
    (limit nl nhb pd nl2 nhb2 pd2 : ℕ)
    (build : ℕ → ℕ → ℕ → ℕ → WatchlistResult) (wl : WatchlistResult)
    (hwl : c.watchlist = some wl) (hlive : now - c.watchlist_ts ≤ ttl) :
    getWatchlistCached c now ttl limit nl nhb pd build
      = ({ wl with items := wl.items.take limit }, c) ∧
    getWatchlistCached c now ttl limit nl nhb pd build
      = getWatchlistCached c now ttl limit nl2 nhb2 pd2 build := by
  constructor <;> simp [getWatchlistCached, hwl, hlive]

/-- A concrete live watchlist cache for the C10 witness. -/
def cacheC10 : AppCache Unit Unit :=
  { watchlist := some
      { date := "2026-10-12", caution := cautionLines, notes := notesLines,
        items := [⟨"TCS.NS", 5⟩, ⟨"INFY.NS", 3⟩] }
    watchlist_ts := 90
    prices := fun _ => none
    news := fun _ => none }

/-- A build function that would be observably different if it ran. -/
def buildC10 : ℕ → ℕ → ℕ → ℕ → WatchlistResult :=
  fun _ _ _ _ => { date := "rebuilt", caution := [], notes := [], items := [] }

/-- Witness for C10: at time 100 (age 10, TTL 1800) the hit is served with
one item and identical answers for two very different parameter sets. -/
theorem C10_watchlist_cache_witness :
    getWatchlistCached cacheC10 100 1800 1 5 72 300 buildC10
      = ({ date := "2026-10-12", caution := cautionLines, notes := notesLines,
           items := [⟨"TCS.NS", 5⟩] }, cacheC10) ∧
    getWatchlistCached cacheC10 100 1800 1 5 72 300 buildC10
      = getWatchlistCached cacheC10 100 1800 1 20 168 600 buildC10 :=
  C10_watchlist_cache cacheC10 100 1800 1 5 72 300 20 168 600 buildC10 _
    rfl (by norm_num [cacheC10])

/-! ## Claim C8: the refresh token check -/

/-- A concrete populated cache used by the C8 theorems. -/
def cacheC8 : AppCache Unit Unit :=
  { watchlist := some
      { date := "2026-10-11", caution := cautionLines, notes := notesLines,
        items := [⟨"TCS.NS", 5⟩] }
    watchlist_ts := 50
    prices := fun _ => none
    news := fun _ => none }

/-- Claim C8 counterexample: with secret "s3cret" configured, the supplied
header " s3cret " is NOT an exact match of the secret, yet the refresh
succeeds with HTTP 200 — the code strips the supplied token before
comparing, so success is not equivalent to exact match. -/
theorem C8_refresh_counterexample :
    (refreshEndpoint "s3cret" (some " s3cret ") cacheC8).1 = 200 ∧
    (" s3cret " : String) ≠ "s3cret" := by
  constructor
  · simp [refreshEndpoint,
      show requireRefreshToken "s3cret" (some " s3cret ") = true from by decide]
  · decide

/-- Claim C8 (amended, proved): with a secret configured, the refresh
succeeds (HTTP 200, cache cleared wholesale) iff the caller supplies a
non-empty token that equals the secret after stripping leading/trailing
whitespace (the configured secret is itself the stripped environment
value); otherwise it fails with HTTP 401 and the cache is unchanged.
With no secret configured, refresh is allowed unconditionally. -/
theorem C8_refresh_token_rule (secret : String) (supplied : Option String)
    (c : AppCache Unit Unit) :
    (secret = "" → refreshEndpoint secret supplied c = (200, clearedCache)) ∧
    (secret ≠ "" →
      (((refreshEndpoint secret supplied c).1 = 200 ∧
          (refreshEndpoint secret supplied c).2 = clearedCache) ↔
        ∃ t, supplied = some t ∧ t ≠ "" ∧ pyStrip t = secret) ∧
      (¬(∃ t, supplied = some t ∧ t ≠ "" ∧ pyStrip t = secret) →
        refreshEndpoint secret supplied c = (401, c))) := by
  have hr : requireRefreshToken secret supplied = true ↔
      (secret = "" ∨ ∃ t, supplied = some t ∧ t ≠ "" ∧ pyStrip t = secret) := by
    rw [requireRefreshToken.eq_def]
    by_cases hs : secret = ""
    · simp [hs]
    · rw [if_neg hs]
      cases supplied with
      | none => simp [hs]
      | some t =>
        by_cases ht : t = ""
        · simp [ht, hs]
        · simp [ht, hs]
  constructor
  · intro h
    rw [refreshEndpoint, if_pos (hr.mpr (Or.inl h))]
  · intro hs
    constructor
    · rw [refreshEndpoint]
      by_cases hb : requireRefreshToken secret supplied = true
      · rw [if_pos hb]
        simpa using (hr.mp hb).resolve_left hs
      · rw [if_neg hb]
        simp only [Bool.not_eq_true] at hb
        constructor
        · rintro ⟨h200, -⟩
          exact absurd h200 (by norm_num)
        · intro hex
          exact absurd (hr.mpr (Or.inr hex)) (by simp [hb])
    · intro hno
      rw [refreshEndpoint, if_neg (fun hb => hno ((hr.mp hb).resolve_left hs))]

/-- Witness for C8: empty secret always allows; exact match allows with a
configured secret; a missing header is rejected with 401 and the cache
kept. -/
theorem C8_refresh_token_rule_witness :
    refreshEndpoint "" none cacheC8 = (200, clearedCache) ∧
    ((refreshEndpoint "s3cret" (some "s3cret") cacheC8).1 = 200 ∧
      (refreshEndpoint "s3cret" (some "s3cret") cacheC8).2 = clearedCache) ∧
    refreshEndpoint "s3cret" none cacheC8 = (401, cacheC8) := by
  refine ⟨(C8_refresh_token_rule "" none cacheC8).1 rfl, ?_, ?_⟩
  · exact (((C8_refresh_token_rule "s3cret" (some "s3cret") cacheC8).2
      (by decide)).1).mpr ⟨"s3cret", rfl, by decide, by decide⟩
  · exact ((C8_refresh_token_rule "s3cret" none cacheC8).2 (by decide)).2
      (by simp)

/-! ## Claim C6: failure isolation, stable ranking, truncation -/

/-- Claim C6 (confirmed): one ticker's failure never aborts the batch — a
failing ticker anywhere in the universe leaves the result exactly as if
that ticker were absent — and the returned items are the surviving
results stable-sorted by `final_score` descending and truncated to the
limit: the sorted list is a permutation of the survivors, is pairwise
descending, and lists the members of every score level in their original
encounter order. -/
theorem C6_build_watchlist (proc : String → Option WItem)
    (xs ys tickers : List String) (t : String) (limit : ℕ) :
    (proc t = none →
      buildWatchlist proc (xs ++ t :: ys) limit
        = buildWatchlist proc (xs ++ ys) limit) ∧
    buildWatchlist proc tickers limit
      = (sortDesc (tickers.filterMap proc)).take limit ∧
    List.Perm (sortDesc (tickers.filterMap proc)) (tickers.filterMap proc) ∧
    (sortDesc (tickers.filterMap proc)).Pairwise
      (fun a b => b.final_score ≤ a.final_score) ∧
    ∀ q : ℚ, (sortDesc (tickers.filterMap proc)).filter (fun z => z.final_score == q)
      = (tickers.filterMap proc).filter (fun z => z.final_score == q) := by
  refine ⟨?_, rfl, sortDesc_perm _, pairwise_sortDesc _, fun q => filter_sortDesc _ q⟩
  intro ht
  rw [buildWatchlist, buildWatchlist, List.filterMap_append, List.filterMap_append,
    List.filterMap_cons_none ht]

/-- Per-ticker outcomes for the C6 witness: "B" fails, the others succeed,
with a score tie between the earlier "A" and the later "D". -/
def procC6 : String → Option WItem :=
  fun t =>
    if t = "A" then some ⟨"A", 5⟩
    else if t = "B" then none
    else if t = "C" then some ⟨"C", 7⟩
    else if t = "D" then some ⟨"D", 5⟩
    else none

/-- Witness for C6: dropping the failing "B" changes nothing, and the
concrete run ranks by score with the "A"/"D" tie in encounter order. -/
theorem C6_build_watchlist_witness :
    buildWatchlist procC6 ["A", "B", "C", "D"] 20
      = buildWatchlist procC6 ["A", "C", "D"] 20 ∧
    buildWatchlist procC6 ["A", "B", "C", "D"] 20
      = [⟨"C", 7⟩, ⟨"A", 5⟩, ⟨"D", 5⟩] := by
  constructor
  · exact (C6_build_watchlist procC6 ["A"] ["C", "D"] ["A", "B", "C", "D"] "B" 20).1 rfl
  · show (sortDesc ((["A", "B", "C", "D"].filterMap procC6))).take 20 = _
    have h1 : ["A", "B", "C", "D"].filterMap procC6
        = [⟨"A", 5⟩, ⟨"C", 7⟩, ⟨"D", 5⟩] := by
      simp [procC6]
    rw [h1]
    have h2 : sortDesc [⟨"A", 5⟩, ⟨"C", 7⟩, ⟨"D", 5⟩]
        = [⟨"C", 7⟩, ⟨"A", 5⟩, ⟨"D", 5⟩] := by
      norm_num [sortDesc, insertDesc]
    rw [h2]
    rfl

/-! ## Claim C4: what the builder result reports -/

/-- Per-ticker outcomes for the C4 theorems: of five tickers, "T2" and
"T4" fail (e.g. with insufficient history) and three succeed. -/
def procC4 : String → Option WItem :=
  fun t =>
    if t = "T1" then some ⟨"T1", 3⟩
    else if t = "T3" then some ⟨"T3", 1⟩
    else if t = "T5" then some ⟨"T5", 2⟩
    else none

/-- Claim C4 counterexample: a 5-ticker run with 2 failures returns a
result IDENTICAL to a 3-ticker run with 0 failures over the same
successes, so the builder result cannot be reporting the attempted count
(5 vs 3), the failed count (2 vs 0), or any failure-message sample; the
claim that it does is false of the code.  The result does contain
exactly the 3 surviving ScoreResults. -/
theorem C4_counterexample :
    procC4 "T2" = none ∧ procC4 "T4" = none ∧
    buildWatchlistResult procC4 ["T1", "T2", "T3", "T4", "T5"] 20 "2026-10-12"
      = buildWatchlistResult procC4 ["T1", "T3", "T5"] 20 "2026-10-12" ∧
    (buildWatchlistResult procC4 ["T1", "T2", "T3", "T4", "T5"] 20
      "2026-10-12").items.length = 3 := by
  have h1 : ["T1", "T2", "T3", "T4", "T5"].filterMap procC4
      = [⟨"T1", 3⟩, ⟨"T3", 1⟩, ⟨"T5", 2⟩] := by
    simp [procC4]
  have h2 : ["T1", "T3", "T5"].filterMap procC4
      = [⟨"T1", 3⟩, ⟨"T3", 1⟩, ⟨"T5", 2⟩] := by
    simp [procC4]
  refine ⟨rfl, rfl, ?_, ?_⟩
  · rw [buildWatchlistResult, buildWatchlistResult, buildWatchlist, buildWatchlist,
      h1, h2]
  · rw [buildWatchlistResult]
    show ((sortDesc (["T1", "T2", "T3", "T4", "T5"].filterMap procC4)).take 20).length = 3
    rw [h1]
    have h3 : sortDesc [⟨"T1", 3⟩, ⟨"T3", 1⟩, ⟨"T5", 2⟩]
        = [⟨"T1", 3⟩, ⟨"T5", 2⟩, ⟨"T3", 1⟩] := by
      norm_num [sortDesc, insertDesc]
    rw [h3]
    rfl

/-- Claim C4 (amended, proved): after processing every ticker the builder
result contains exactly the surviving ScoreResults — 3 of them when 2 of
5 tickers fail and the limit allows at least 3 — but reports no
attempted/succeeded/failed counts and no failure messages: failures are
silently skipped, and the result equals that of a universe holding only
the surviving tickers. -/
theorem C4_silent_failures (proc : String → Option WItem) (t1 t2 t3 t4 t5 : String)
    (a b c : WItem) (limit : ℕ) (today : String)
    (h1 : proc t1 = some a) (h2 : proc t2 = none) (h3 : proc t3 = some b)
    (h4 : proc t4 = none) (h5 : proc t5 = some c) (hl : 3 ≤ limit) :
    buildWatchlistResult proc [t1, t2, t3, t4, t5] limit today
      = buildWatchlistResult proc [t1, t3, t5] limit today ∧
    (buildWatchlistResult proc [t1, t2, t3, t4, t5] limit today).items.length = 3 := by
  have hfm : [t1, t2, t3, t4, t5].filterMap proc = [a, b, c] := by
    simp [List.filterMap_cons, h1, h2, h3, h4, h5]
  have hfm2 : [t1, t3, t5].filterMap proc = [a, b, c] := by
    simp [List.filterMap_cons, h1, h3, h5]
  constructor
  · rw [buildWatchlistResult, buildWatchlistResult, buildWatchlist, buildWatchlist,
      hfm, hfm2]
  · rw [buildWatchlistResult]
    show ((sortDesc ([t1, t2, t3, t4, t5].filterMap proc)).take limit).length = 3
    rw [hfm]
    have hlen : (sortDesc [a, b, c]).length = 3 := by
      simpa using (sortDesc_perm [a, b, c]).length_eq
    rw [List.length_take, hlen]
    omega

/-- Witness for C4 on the concrete five-ticker universe with two
failures. -/
theorem C4_silent_failures_witness :
    buildWatchlistResult procC4 ["T1", "T2", "T3", "T4", "T5"] 25 "2026-10-11"
      = buildWatchlistResult procC4 ["T1", "T3", "T5"] 25 "2026-10-11" ∧
    (buildWatchlistResult procC4 ["T1", "T2", "T3", "T4", "T5"] 25
      "2026-10-11").items.length = 3 :=
  C4_silent_failures procC4 "T1" "T2" "T3" "T4" "T5"
    ⟨"T1", 3⟩ ⟨"T3", 1⟩ ⟨"T5", 2⟩ 25 "2026-10-11" rfl rfl rfl rfl rfl
    (by norm_num)

/-! ## Claim C2: the risk component -/

/-- A 31-close series (30 flat days, then one +100% day) whose last 30
one-day returns are 29 zeros and a single 1, giving sample variance 1/30
and population variance 29/900. -/
def closesC2 : List ℚ :=
  [1, 1, 1, 1, 1, 1, 1, 1, 1, 1, 1, 1, 1, 1, 1, 1, 1, 1, 1, 1, 1, 1, 1, 1, 1,
   1, 1, 1, 1, 1, 2]

/-- Claim C2 counterexample: on the concrete 31-close series, score.py's
risk (np.std: population standard deviation, n denominator) differs from
the claimed sample standard deviation (n-1 denominator) scaled by 100 —
the claim is false of `compute_scores`. -/
theorem C2_counterexample : riskScore closesC2 ≠ riskClaimed closesC2 := by
  have hlen : (31 : ℕ) ≤ closesC2.length := by norm_num [closesC2]
  have hlen30 : (rets1d closesC2).length = 30 := by simp [rets1d]
  have hpop : popVar (rets1d closesC2) = 29 / 900 := by
    norm_num [popVar, rets1d, listMean, closesC2, List.range_succ]
  have hsamp : ((rets1d closesC2).map
        fun x => (x - listMean (rets1d closesC2)) ^ 2).sum /
      (((rets1d closesC2).length : ℚ) - 1) = 1 / 30 := by
    norm_num [rets1d, listMean, closesC2, List.range_succ]
  have hlhs : riskScore closesC2 = Real.sqrt (((29 / 900 : ℚ) : ℝ)) * 100 := by
    rw [riskScore, volScore, if_pos hlen, if_pos (by rw [hlen30]; norm_num), hpop]
  have hrhs : riskClaimed closesC2 = Real.sqrt (((1 / 30 : ℚ) : ℝ)) * 100 := by
    rw [riskClaimed, if_pos hlen, hsamp]
  rw [hlhs, hrhs]
  have hlt : Real.sqrt (((29 / 900 : ℚ) : ℝ)) < Real.sqrt (((1 / 30 : ℚ) : ℝ)) := by
    apply Real.sqrt_lt_sqrt
    · push_cast
      norm_num
    · push_cast
      norm_num
  exact ne_of_lt (by linarith)

/-- Claim C2 (amended, proved): app.py's risk is exactly the claimed
quantity — 100 times the sample (n-1 denominator) standard deviation of
the most recent 30 one-day returns when at least 31 closes are
available, else 0.0 — while score.py's np.std risk uses the population
(n) denominator over the same window; both are 0.0 below 31 closes and
both are always nonnegative. -/
theorem C2_risk_characterization (closes : List ℚ) :
    riskApp closes = riskClaimed closes ∧
    (31 ≤ closes.length →
      riskScore closes = Real.sqrt ((popVar (rets1d closes) : ℝ)) * 100) ∧
    (closes.length < 31 → riskApp closes = 0 ∧ riskScore closes = 0) ∧
    0 ≤ riskApp closes ∧ 0 ≤ riskScore closes := by
  have hlen30 : (rets1d closes).length = 30 := by simp [rets1d]
  have hvar : sampleVar (rets1d closes)
      = ((rets1d closes).map fun x => (x - listMean (rets1d closes)) ^ 2).sum /
        (((rets1d closes).length : ℚ) - 1) := by
    rw [sampleVar, hlen30]
    norm_num
  refine ⟨?_, ?_, ?_, ?_, ?_⟩
  · rw [riskApp, volApp, riskClaimed]
    by_cases hc : 31 ≤ closes.length
    · rw [if_pos hc, if_pos hc, hvar]
    · rw [if_neg hc, if_neg hc, zero_mul]
  · intro hc
    rw [riskScore, volScore, if_pos hc, if_pos (by rw [hlen30]; norm_num)]
  · intro hc
    have hnc : ¬(31 ≤ closes.length) := by omega
    constructor
    · rw [riskApp, volApp, if_neg hnc, zero_mul]
    · rw [riskScore, volScore, if_neg hnc, zero_mul]
  · rw [riskApp, volApp]
    apply mul_nonneg _ (by norm_num)
    split
    · exact Real.sqrt_nonneg _
    · exact le_refl 0
  · rw [riskScore, volScore]
    apply mul_nonneg _ (by norm_num)
    split
    · split
      · exact Real.sqrt_nonneg _
      · exact le_refl 0
    · exact le_refl 0

/-- Witness for C2 at the concrete 31-close series (the long-history
branch) and at the 25-bar flat series (the short-history branch). -/
theorem C2_risk_characterization_witness :
    riskApp closesC2 = riskClaimed closesC2 ∧
    riskScore closesC2 = Real.sqrt ((popVar (rets1d closesC2) : ℝ)) * 100 ∧
    riskApp (closesOf pricesC9) = 0 ∧
    0 ≤ riskScore closesC2 := by
  obtain ⟨h1, h2, -, -, h5⟩ := C2_risk_characterization closesC2
  obtain ⟨-, -, h3, -, -⟩ := C2_risk_characterization (closesOf pricesC9)
  exact ⟨h1, h2 (by norm_num [closesC2]), (h3 (by decide)).1, h5⟩

/-! ## Claim C1: label precedence -/

/-- Claim C1 (amended, proved): in score.py's `compute_scores` the label
follows exactly the claimed first-match-wins rule with the turnaround
label taking precedence; in app.py's `compute_score_from_series` the
High-Risk test is applied last, so "High Risk Watch" overrides
"Turnaround Watch" whenever `risk > 4` and `final_score > 0`, and only
otherwise does the claimed rule apply. -/
theorem C1_label_rules (ni mom : ℚ) (risk fs : ℝ) (dt pn : Bool) :
    labelScore ni mom risk fs dt pn = labelClaimed ni mom risk fs dt pn ∧
    labelApp ni mom risk fs dt pn
      = (if 4 < risk ∧ 0 < fs then "High Risk Watch"
         else labelClaimed ni mom risk fs dt pn) := by
  constructor
  · rfl
  · simp only [labelApp, labelClaimed]
    split_ifs <;> rfl

/-- The 31-close series for the C1 counterexample: 26 flat days, a +70%
spike, a -70% crash, +30%, -30%, then flat.  This leaves `r1 = 0`,
`r5 = r20 = -0.5359` (downtrend) and one-day returns with sample
variance 1/25, i.e. risk exactly 20. -/
def closesC1 : List ℚ :=
  [1, 1, 1, 1, 1, 1, 1, 1, 1, 1, 1, 1, 1, 1, 1, 1, 1, 1, 1, 1, 1, 1, 1, 1, 1,
   1, 17/10, 51/100, 663/1000, 4641/10000, 4641/10000]

/-- The C1 counterexample price bars. -/
def pricesC1 : List PriceBar :=
  closesC1.map fun q => ⟨some q⟩

/-- Ten maximally positive news items: news_impact = 1*60 + 10*4 = 100. -/
def newsC1 : List NewsItem :=
  [⟨some 1⟩, ⟨some 1⟩, ⟨some 1⟩, ⟨some 1⟩, ⟨some 1⟩,
   ⟨some 1⟩, ⟨some 1⟩, ⟨some 1⟩, ⟨some 1⟩, ⟨some 1⟩]

/-- Claim C1 counterexample: on this scoring input the turnaround
condition holds (sustained downtrend plus strong positive news), yet
app.py's `compute_score_from_series` labels the ticker
"High Risk Watch" (risk 20 > 4 with positive final score), not
"Turnaround Watch": the turnaround label does not take precedence. -/
theorem C1_counterexample :
    (computeScoreFromSeries "TCS.NS" pricesC1 newsC1).map (fun r => r.label)
      = some "High Risk Watch" ∧
    isDowntrend (closesOf pricesC1) = true ∧
    hasPositiveNews newsC1 = true ∧
    labelClaimed (newsImpact newsC1) (momentum closesC1) (riskApp closesC1)
      (finalScoreApp closesC1 newsC1) (isDowntrend closesC1) (hasPositiveNews newsC1)
      = "Turnaround Watch" ∧
    "High Risk Watch" ≠ "Turnaround Watch" := by
  have hcl : closesOf pricesC1 = closesC1 := by
    have hgen : ∀ l : List ℚ, closesOf (l.map fun q => ⟨some q⟩) = l := by
      intro l
      induction l with
      | nil => rfl
      | cons x xs ih =>
        simp only [closesOf, List.map_cons, List.filterMap_cons] at ih ⊢
        rw [ih]
    exact hgen closesC1
  have hlen : ¬(closesC1.length < 25) := by norm_num [closesC1]
  have hr1 : retN closesC1 1 = 0 := by
    norm_num [retN, closesC1]
  have hr5 : retN closesC1 5 = -5359/10000 := by
    norm_num [retN, closesC1]
  have hr20 : retN closesC1 20 = -5359/10000 := by
    norm_num [retN, closesC1]
  have hmom : momentum closesC1 = -5359/200 := by
    rw [momentum, hr1, hr5, hr20]
    norm_num
  have hsv : sampleVar (rets1d closesC1) = 1/25 := by
    norm_num [sampleVar, rets1d, listMean, closesC1, List.range_succ]
  have hrisk : riskApp closesC1 = 20 := by
    rw [riskApp, volApp, if_pos (by norm_num [closesC1] : 31 ≤ closesC1.length), hsv]
    rw [show ((1/25 : ℚ) : ℝ) = (1/5)^2 by push_cast; norm_num]
    rw [Real.sqrt_sq (by norm_num)]
    norm_num
  have hni : newsImpact newsC1 = 100 := by
    norm_num [newsImpact, avgSent, newsC1, sentimentOrZero]
  have hdt : isDowntrend closesC1 = true := by
    simp only [isDowntrend, hr5, hr20, Bool.and_eq_true, decide_eq_true_eq]
    norm_num
  have hpn : hasPositiveNews newsC1 = true := by
    simp only [hasPositiveNews, hni, decide_eq_true_eq]
    norm_num
  have hbon : turnaroundBonus closesC1 newsC1 = 12 := by
    rw [turnaroundBonus, hr1, hr5, hr20, hni, turnaroundBonusRaw,
      if_pos (by norm_num), if_neg (by norm_num)]
    norm_num
  have hfs : 0 < finalScoreApp closesC1 newsC1 := by
    rw [finalScoreApp, hni, hmom, hrisk, hbon]
    push_cast
    norm_num
  have hlab : labelApp (newsImpact newsC1) (momentum closesC1) (riskApp closesC1)
      (finalScoreApp closesC1 newsC1) (isDowntrend closesC1) (hasPositiveNews newsC1)
      = "High Risk Watch" := by
    simp only [labelApp]
    rw [if_pos ⟨by rw [hrisk]; norm_num, hfs⟩]
  have hclab : labelClaimed (newsImpact newsC1) (momentum closesC1) (riskApp closesC1)
      (finalScoreApp closesC1 newsC1) (isDowntrend closesC1) (hasPositiveNews newsC1)
      = "Turnaround Watch" := by
    rw [labelClaimed, if_pos (by rw [hdt, hpn]; rfl)]
  refine ⟨?_, by rw [hcl]; exact hdt, hpn, hclab, by decide⟩
  simp only [computeScoreFromSeries, hcl]
  rw [if_neg hlen]
  simp only [Option.map_some']
  rw [hlab]

/-! ## Claim C7: the keyword sentiment function -/

/-- Claim C7 (confirmed): the keyword heuristic lower-cases the text,
counts positive-set and negative-set members contained as substrings,
and returns `(pos_hits - neg_hits) / (pos_hits + neg_hits)` when either
count is positive, and 0.0 otherwise; being a total function of the text
it is deterministic and never fails, and its result always lies in
[-1, 1]. -/
theorem C7_simple_sentiment (text : String) :
    simpleSentiment text
      = (if 0 < posHits (lowerChars text) + negHits (lowerChars text) then
          ((posHits (lowerChars text) : ℚ) - (negHits (lowerChars text) : ℚ))
            / ((posHits (lowerChars text) : ℚ) + (negHits (lowerChars text) : ℚ))
        else 0) ∧
    -1 ≤ simpleSentiment text ∧ simpleSentiment text ≤ 1 := by
  have key : ∀ p n : ℕ, 0 < p + n →
      -1 ≤ ((p : ℚ) - (n : ℚ)) / ((p : ℚ) + (n : ℚ)) ∧
        ((p : ℚ) - (n : ℚ)) / ((p : ℚ) + (n : ℚ)) ≤ 1 := by
    intro p n hpn
    have hp : (0 : ℚ) ≤ (p : ℚ) := Nat.cast_nonneg p
    have hn : (0 : ℚ) ≤ (n : ℚ) := Nat.cast_nonneg n
    have hpos : (0 : ℚ) < (p : ℚ) + (n : ℚ) := by exact_mod_cast hpn
    constructor
    · rw [le_div_iff₀ hpos]
      linarith
    · rw [div_le_one hpos]
      linarith
  have main : simpleSentiment text
      = (if 0 < posHits (lowerChars text) + negHits (lowerChars text) then
          ((posHits (lowerChars text) : ℚ) - (negHits (lowerChars text) : ℚ))
            / ((posHits (lowerChars text) : ℚ) + (negHits (lowerChars text) : ℚ))
        else 0) := by
    by_cases he : text = ""
    · subst he
      have h0 : posHits (lowerChars "") = 0 := by decide
      have h1 : negHits (lowerChars "") = 0 := by decide
      rw [simpleSentiment, if_pos rfl, h0, h1]
      norm_num
    · simp only [simpleSentiment, if_neg he]
      by_cases ht : posHits (lowerChars text) + negHits (lowerChars text) = 0
      · rw [if_pos ht, if_neg (by omega)]
      · rw [if_neg ht, if_pos (by omega)]
        have h1 : (1 : ℚ)
            ≤ ((posHits (lowerChars text) + negHits (lowerChars text) : ℕ) : ℚ) := by
          exact_mod_cast Nat.one_le_iff_ne_zero.mpr ht
        rw [max_eq_right h1]
        push_cast
        ring
  refine ⟨main, ?_, ?_⟩
  · rw [main]
    by_cases h : 0 < posHits (lowerChars text) + negHits (lowerChars text)
    · rw [if_pos h]
      exact (key _ _ h).1
    · rw [if_neg h]
      norm_num
  · rw [main]
    by_cases h : 0 < posHits (lowerChars text) + negHits (lowerChars text)
    · rw [if_pos h]
      exact (key _ _ h).2
    · rw [if_neg h]
      norm_num

end StockMVP
